import Mathlib

/-!
Shallow embedding of the Go ticket-acquisition program (`tickgrabber`).

The program's core is the `TicketGrabber` type in the main package:
`Start` runs login → navigateToConcert → monitorTickets; `monitorTickets`
is a ticker-driven poll loop that, on observing availability, runs
`purchaseTicket` = `selectSeats` → `confirmPurchase` → `handlePayment`.

Page effects (the `browser` package) are modelled as oracles:
* `ElementExists(ctx, sel)` returns `(bool, error)`; we model it as
  `Option Bool` where `none` is an error result and `some b` the value
  with a nil error (the caller sites only ever use the pair through
  the patterns `err != nil` and `err == nil && value`).
* `ClickElement(ctx, sel)` returns `(bool, error)`; we keep both
  components in `ClickOutcome` since callers test `err == nil && clicked`.

Cancellation (Go `context`) is modelled by the cycle index at which the
context becomes done: the poll loop's `select` observes it at the top of
an iteration; a browser call made under a done context returns an error.
-/

namespace TickGrabber

/-- Result of `browser.ClickElement`: the `(clicked, err)` pair.
`e` is `true` when the Go error is non-nil. -/
structure ClickOutcome where
  clicked : Bool
  e : Bool
deriving DecidableEq, Repr

/-- The test every caller applies to a click: `err == nil && clicked`. -/
def ClickOutcome.ok (c : ClickOutcome) : Bool := !c.e && c.clicked

/-- The ordered availability indicators of `checkTicketAvailability`. -/
def ticketSelectors : List String :=
  [".ticket-available", ".btn-buy", "[data-status='available']", ".seat-available"]

/-- The loop body of `checkTicketAvailability`: scan the selector list;
an erroring query (`none`) is skipped (`continue`), the first `some true`
returns `(true, nil)`, and exhaustion returns `(false, nil)`. -/
def scanSelectors (q : String → Option Bool) : List String → Bool × Option String
  | [] => (false, none)
  | s :: rest =>
    match q s with
    | none => scanSelectors q rest
    | some true => (true, none)
    | some false => scanSelectors q rest

/-- Model of `checkTicketAvailability`: returns `(bool, error)`; `q sel` is the
outcome of `tg.browser.ElementExists(ctx, sel)`. -/
def checkTicketAvailability (q : String → Option Bool) : Bool × Option String :=
  scanSelectors q ticketSelectors

/-- The seat selector built by `selectSeats` for one preferred tag:
`fmt.Sprintf("[data-seat-type='%s']", preference)`. -/
def seatSelector (tag : String) : String :=
  "[data-seat-type='" ++ tag ++ "']"

/-- The generic fallback selector of `selectSeats`. -/
def fallbackSelector : String := ".seat-available"

/-- Which seat `selectSeats` ended up clicking: a preferred tag, or the
generic `.seat-available` fallback. -/
inductive SeatChoice where
  | preferred (tag : String)
  | fallback
deriving DecidableEq, Repr

/-- The `was-preferred` flag is derivable from the choice: only the generic
fallback click is a non-preferred seat. -/
def SeatChoice.wasPreferred : SeatChoice → Bool
  | .preferred _ => true
  | .fallback => false

/-- The preference loop of `selectSeats`: first tag whose selector click
satisfies `err == nil && clicked` wins. -/
def trySeatPrefs (click : String → ClickOutcome) : List String → Option String
  | [] => none
  | p :: rest =>
    if (click (seatSelector p)).ok then some p else trySeatPrefs click rest

/-- Model of `selectSeats`: try each preferred tag in order; if none succeeds,
try the one generic fallback; `none` is the `无法选择座位` error. -/
def selectSeats (click : String → ClickOutcome) (prefs : List String) : Option SeatChoice :=
  match trySeatPrefs click prefs with
  | some p => some (SeatChoice.preferred p)
  | none => if (click fallbackSelector).ok then some SeatChoice.fallback else none

/-- The ordered purchase-button selectors of `confirmPurchase`. -/
def purchaseSelectors : List String :=
  [".btn-purchase", ".btn-buy", "[data-action='purchase']"]

/-- Model of `confirmPurchase`: click the first working purchase button; `true`
is the nil-error return, `false` the `无法找到购买按钮` error. -/
def confirmPurchase (click : String → ClickOutcome) : Bool :=
  purchaseSelectors.any (fun s => (click s).ok)

/-- The payment-wait loop of `handlePayment`:
`for i := 0; i < 60; i++ { sleep 1s; success, err := ElementExists(".payment-success"); if err == nil && success { return nil } }`.
`q i` is the outcome of the check in iteration `i`. Returns the success
flag together with the number of checks actually performed. -/
def handlePaymentAux (q : Nat → Option Bool) : Nat → Nat → Bool × Nat
  | _, 0 => (false, 0)
  | i, n + 1 =>
    if q i = some true then (true, 1)
    else
      ((handlePaymentAux q (i + 1) n).1, (handlePaymentAux q (i + 1) n).2 + 1)

/-- Model of `handlePayment`'s loop (60 iterations, starting at `i = 0`). -/
def handlePaymentWait (q : Nat → Option Bool) : Bool × Nat :=
  handlePaymentAux q 0 60

/-- Model of `handlePayment`: `true` is the nil-error return (payment success
observed), `false` is the `支付超时` (payment timeout) error. -/
def handlePayment (q : Nat → Option Bool) : Bool :=
  (handlePaymentWait q).1

/-- Whether the Go context is done at step `i`, given the step at which
cancellation was delivered. -/
def cancelledAt (cancelFrom : Option Nat) (i : Nat) : Bool :=
  match cancelFrom with
  | none => false
  | some c => c ≤ i

/-- Model of `handlePayment` with Go context semantics made explicit: the loop
body itself never consults `ctx.Done()`; a check performed under a done
context is a `chromedp.Run` that returns an error, i.e. `none`. -/
def handlePaymentCtx (cancelFrom : Option Nat) (page : Nat → Option Bool) : Bool × Nat :=
  handlePaymentWait (fun i => if cancelledAt cancelFrom i then none else page i)

/-- The observable remote actions of one run, each tagged with the poll
cycle in which it happened. `pollCheck` is a `checkTicketAvailability`
call, `availError` the poll loop's `err != nil` logging branch,
`seatAttempt`/`confirmAttempt`/`paymentAttempt` the three phases of
`purchaseTicket`, `loginAttempt`/`navigateEvent` the pre-loop phases. -/
inductive Action where
  | loginAttempt
  | navigateEvent
  | pollCheck (cycle : Nat)
  | availError (cycle : Nat)
  | seatAttempt (cycle : Nat)
  | confirmAttempt (cycle : Nat)
  | paymentAttempt (cycle : Nat)
deriving DecidableEq, Repr

def Action.isAvailError : Action → Bool
  | .availError _ => true
  | _ => false

/-- The page behaviour visible during one poll cycle: `availQ` answers
the availability `ElementExists` queries, `clickQ` the seat/purchase
clicks, `payQ i` the `i`-th payment-success check. -/
structure CycleEnv where
  availQ : String → Option Bool
  clickQ : String → ClickOutcome
  payQ : Nat → Option Bool

/-- Why `purchaseTicket` returned: nil error, or the wrapped error from
one of its three phases. -/
inductive PurchaseResult where
  | ok
  | seatFail
  | confirmFail
  | payTimeout
deriving DecidableEq, Repr

/-- Model of `purchaseTicket` = `selectSeats` → `confirmPurchase` →
`handlePayment`, short-circuiting on the first phase error, together
with the remote actions it performed. -/
def purchaseActions (e : CycleEnv) (prefs : List String) (cycle : Nat) :
    PurchaseResult × List Action :=
  match selectSeats e.clickQ prefs with
  | none => (PurchaseResult.seatFail, [Action.seatAttempt cycle])
  | some _ =>
    if confirmPurchase e.clickQ then
      if handlePayment e.payQ then
        (PurchaseResult.ok,
          [Action.seatAttempt cycle, Action.confirmAttempt cycle, Action.paymentAttempt cycle])
      else
        (PurchaseResult.payTimeout,
          [Action.seatAttempt cycle, Action.confirmAttempt cycle, Action.paymentAttempt cycle])
    else
      (PurchaseResult.confirmFail,
        [Action.seatAttempt cycle, Action.confirmAttempt cycle])

/-- The environment of a whole `monitorTickets` run: per-cycle page
behaviour plus the cycle index from which the context is done. -/
structure Env where
  cycles : Nat → CycleEnv
  cancelAt : Option Nat

/-- How `monitorTickets` returned (it returns `nil` both on purchase
success and on `ctx.Done()`); `running` means the loop is still going
after the given number of simulated cycles. -/
inductive RunResult where
  | success (cycle : Nat)
  | cancelled (cycle : Nat)
  | running
deriving DecidableEq, Repr

/-- The `for { select { ... } }` loop of `monitorTickets`, fuelled by
the number of ticker cycles simulated. At the top of each iteration the
`select` observes `ctx.Done()` if the context is done; otherwise the
ticker fires and the body runs: `checkTicketAvailability`, whose error
branch logs and continues, then on `available` a `purchaseTicket` whose
nil error returns from the loop and whose non-nil error logs and
continues. -/
def monitorAux (env : Env) (prefs : List String) : Nat → Nat → RunResult × List Action
  | _, 0 => (RunResult.running, [])
  | cycle, n + 1 =>
    if cancelledAt env.cancelAt cycle then
      (RunResult.cancelled cycle, [])
    else
      match (checkTicketAvailability (env.cycles cycle).availQ).2 with
      | some _ =>
        ((monitorAux env prefs (cycle + 1) n).1,
          Action.pollCheck cycle :: Action.availError cycle ::
            (monitorAux env prefs (cycle + 1) n).2)
      | none =>
        if (checkTicketAvailability (env.cycles cycle).availQ).1 then
          match (purchaseActions (env.cycles cycle) prefs cycle).1 with
          | PurchaseResult.ok =>
            (RunResult.success cycle,
              Action.pollCheck cycle :: (purchaseActions (env.cycles cycle) prefs cycle).2)
          | _ =>
            ((monitorAux env prefs (cycle + 1) n).1,
              Action.pollCheck cycle ::
                (purchaseActions (env.cycles cycle) prefs cycle).2 ++
                  (monitorAux env prefs (cycle + 1) n).2)
        else
          ((monitorAux env prefs (cycle + 1) n).1,
            Action.pollCheck cycle :: (monitorAux env prefs (cycle + 1) n).2)

/-- Model of `monitorTickets`, started at cycle 0. -/
def monitorTicketsRun (env : Env) (prefs : List String) (fuel : Nat) :
    RunResult × List Action :=
  monitorAux env prefs 0 fuel

/-- The outcomes of the three steps of a per-site login
(`browser.Navigate` of the login URL, `FillForm`, `SubmitForm`);
`none` is a nil error, `some msg` a non-nil one. -/
structure LoginEnv where
  navigateR : Option String
  fillR : Option String
  submitR : Option String

/-- Shared shape of `loginInterpark` / `loginYes24` / `loginMelon`:
navigate, fill, submit, returning the first non-nil error. -/
def loginSteps (e : LoginEnv) : Option String :=
  match e.navigateR with
  | some m => some m
  | none =>
    match e.fillR with
    | some m => some m
    | none => e.submitR

/-- Model of `loginInterpark` (fields `username`/`password`). -/
def loginInterpark (e : LoginEnv) : Option String := loginSteps e

/-- Model of `loginYes24` (fields `userId`/`userPw`). -/
def loginYes24 (e : LoginEnv) : Option String := loginSteps e

/-- Model of `loginMelon` (fields `id`/`pw`). -/
def loginMelon (e : LoginEnv) : Option String := loginSteps e

/-- Model of `login`: dispatch on `config.Ticketing.DefaultSite`; an unknown site
is the `不支持的票务网站` error. -/
def login (site : String) (e : LoginEnv) : Option String :=
  match site with
  | "interpark" => loginInterpark e
  | "yes24" => loginYes24 e
  | "melon" => loginMelon e
  | _ => some ("不支持的票务网站: " ++ site)

/-- The environment of one `Start` call. `navR` is the outcome of the
single `browser.Navigate(ctx, concert.URL)` in `navigateToConcert`. -/
structure StartEnv where
  site : String
  loginEnv : LoginEnv
  navR : Option String
  run : Env

/-- How `Start` returned: the wrapped login error, the wrapped
navigation error, or whatever `monitorTickets` produced. -/
inductive StartOutcome where
  | loginFailed (msg : String)
  | navigationFailed (msg : String)
  | monitorDone (r : RunResult)
deriving DecidableEq, Repr

/-- Model of `Start`: login, then `navigateToConcert` (one `Navigate` call, a
fixed 2-second settle sleep, no retry), then `monitorTickets`; each
phase's error is wrapped and returned immediately. -/
def Start (e : StartEnv) (prefs : List String) (fuel : Nat) :
    StartOutcome × List Action :=
  match login e.site e.loginEnv with
  | some m => (StartOutcome.loginFailed ("登录失败: " ++ m), [Action.loginAttempt])
  | none =>
    match e.navR with
    | some m =>
      (StartOutcome.navigationFailed ("进入演唱会页面失败: " ++ m),
        [Action.loginAttempt, Action.navigateEvent])
    | none =>
      (StartOutcome.monitorDone (monitorTicketsRun e.run prefs fuel).1,
        Action.loginAttempt :: Action.navigateEvent :: (monitorTicketsRun e.run prefs fuel).2)

/-- Go's conversion of the float `RefreshInterval*1000` to the integer
type `time.Duration` truncates toward zero. -/
def truncTowardZero (x : ℚ) : Int :=
  if 0 ≤ x then Int.floor x else Int.ceil x

/-- The millisecond count `time.Duration(tg.config.Ticketing.RefreshInterval*1000)`
computed by `monitorTickets` (the float is modelled as a rational). -/
def refreshDurationMs (ri : ℚ) : Int :=
  truncTowardZero (ri * 1000)

/-- Go's `time.NewTicker(d)` panics exactly when `d <= 0`; `d` here is
the millisecond count (multiplying by `time.Millisecond` preserves its
sign). -/
def newTickerPanics (d : Int) : Bool :=
  decide (d ≤ 0)

/-- Whether the `time.NewTicker` call at the top of `monitorTickets`
panics, as a function of the configured `RefreshInterval`. -/
def monitorTickerPanics (ri : ℚ) : Bool :=
  newTickerPanics (refreshDurationMs ri)

def Action.isConfirm : Action → Bool
  | .confirmAttempt _ => true
  | _ => false

def Action.isPayment : Action → Bool
  | .paymentAttempt _ => true
  | _ => false

/-- The trace of `len` consecutive availability polls starting at cycle
`start` (what a run leaves behind while availability stays false). -/
def pollTrace : Nat → Nat → List Action
  | _, 0 => []
  | start, len + 1 => Action.pollCheck start :: pollTrace (start + 1) len

/-- A page on which the first availability indicator matches. -/
def availYes : String → Option Bool :=
  fun s => if s = ".ticket-available" then some true else some false

/-- A page on which no availability indicator matches. -/
def availNo : String → Option Bool := fun _ => some false

/-- A page on which every click succeeds. -/
def clickAllOk : String → ClickOutcome := fun _ => ⟨true, false⟩

/-- A page on which no click succeeds. -/
def clickAllFail : String → ClickOutcome := fun _ => ⟨false, false⟩

/-- A payment page that never shows the success element. -/
def payNever : Nat → Option Bool := fun _ => some false

/-- A payment page that shows the success element immediately. -/
def payNow : Nat → Option Bool := fun _ => some true

/-- A cycle with tickets, a clickable seat and an immediately
successful payment. -/
def cycleSuccess : CycleEnv := ⟨availYes, clickAllOk, payNow⟩

/-- A cycle with tickets and a clickable seat whose payment wait times
out. -/
def cycleTimeout : CycleEnv := ⟨availYes, clickAllOk, payNever⟩

/-- A cycle with no tickets. -/
def cycleNoTickets : CycleEnv := ⟨availNo, clickAllFail, payNever⟩

/-- A cycle with tickets and a clickable seat but no working purchase
button: `confirmPurchase` fails. -/
def cycleConfirmFail : CycleEnv :=
  ⟨availYes, fun s => if s = seatSelector "VIP" then ⟨true, false⟩ else ⟨false, false⟩, payNever⟩

/-- Run in which cycle 0 times out at payment and cycle 1 succeeds. -/
def envC1 : Env := ⟨fun n => if n = 0 then cycleTimeout else cycleSuccess, none⟩

/-- Run in which every cycle succeeds outright. -/
def envW : Env := ⟨fun _ => cycleSuccess, none⟩

/-- Run that never sees tickets and is cancelled before cycle 0. -/
def envCancel : Env := ⟨fun _ => cycleNoTickets, some 0⟩

/-- Run that never sees tickets and is never cancelled. -/
def envIdle : Env := ⟨fun _ => cycleNoTickets, none⟩

/-- Run with a confirm-purchase failure at cycle 0. -/
def envConfirmFail : Env := ⟨fun _ => cycleConfirmFail, none⟩

/-- A login whose three steps all succeed. -/
def loginOkEnv : LoginEnv := ⟨none, none, none⟩

/-- A `Start` whose login fails at the navigate step. -/
def startEnvLoginFail : StartEnv := ⟨"interpark", ⟨some "认证失败", none, none⟩, none, envIdle⟩

/-- A `Start` whose login succeeds and whose event-page navigation
fails. -/
def startEnvNavFail : StartEnv := ⟨"interpark", loginOkEnv, some "导航超时", envIdle⟩

/-! ## Helper lemmas -/

/-- The scan over the indicator list computes `any` of the non-erroring
matches and always carries a nil error. -/
theorem scanSelectors_eq (q : String → Option Bool) (l : List String) :
    scanSelectors q l = (l.any (fun s => q s == some true), none) := by
  induction l with
  | nil => rfl
  | cons s rest ih =>
    rw [scanSelectors]
    cases hq : q s with
    | none => simp [hq, ih]
    | some b => cases b <;> simp [hq, ih]

/-- Unfolding of `checkTicketAvailability` through the scan lemma. -/
theorem check_eq (q : String → Option Bool) :
    checkTicketAvailability q = (ticketSelectors.any (fun s => q s == some true), none) :=
  scanSelectors_eq q ticketSelectors

/-- Every action that `purchaseTicket` emits is one of the three
purchase phases, tagged with the cycle it was invoked in. -/
theorem purchaseActions_mem (e : CycleEnv) (prefs : List String) (cycle : Nat)
    (a : Action) (h : a ∈ (purchaseActions e prefs cycle).2) :
    a = Action.seatAttempt cycle ∨ a = Action.confirmAttempt cycle ∨
      a = Action.paymentAttempt cycle := by
  unfold purchaseActions at h
  split at h
  · simp at h; simp [h]
  · split at h
    · split at h <;> simp at h <;> rcases h with h | h | h <;> simp [h]
    · simp at h; rcases h with h | h <;> simp [h]

/-- No action emitted by `purchaseTicket` is the poll loop's
availability-error branch. -/
theorem purchaseActions_no_availError (e : CycleEnv) (prefs : List String) (cycle : Nat) :
    ((purchaseActions e prefs cycle).2.all (fun a => !a.isAvailError)) = true := by
  unfold purchaseActions
  split
  · simp [Action.isAvailError]
  · split
    · split <;> simp [Action.isAvailError]
    · simp [Action.isAvailError]

/-- The poll loop never takes its availability-error branch: no
`availError` action ever appears in a run's trace. -/
theorem monitor_no_availError (env : Env) (prefs : List String) :
    ∀ fuel start, ((monitorAux env prefs start fuel).2.all (fun a => !a.isAvailError)) = true := by
  intro fuel
  induction fuel with
  | zero => intro start; rfl
  | succ n ih =>
    intro start
    rw [monitorAux]
    split
    · rfl
    · simp only [check_eq]
      split
      · split
        · simp only [List.all_cons, Bool.and_eq_true]
          exact ⟨rfl, purchaseActions_no_availError _ _ _⟩
        · simp only [List.all_cons, List.all_append, Bool.and_eq_true]
          exact ⟨⟨rfl, purchaseActions_no_availError _ _ _⟩, ih _⟩
      · simp only [List.all_cons, Bool.and_eq_true]
        exact ⟨rfl, ih _⟩

/-- If no check in the window succeeds, the payment loop runs all its
iterations and reports failure. -/
theorem handlePaymentAux_timeout (q : Nat → Option Bool) :
    ∀ n i, (∀ j, j < i + n → q j ≠ some true) →
      handlePaymentAux q i n = (false, n) := by
  intro n
  induction n with
  | zero => intro i h; rfl
  | succ m ih =>
    intro i h
    have h0 : ¬q i = some true := h i (by omega)
    rw [handlePaymentAux, if_neg h0, ih (i + 1) (fun j hj => h j (by omega))]

/-- Running `handlePayment` with no success signal in its 60 checks: all 60
checks are performed and the timeout error is returned. -/
theorem handlePayment_timeout (q : Nat → Option Bool)
    (h : ∀ j, j < 60 → q j ≠ some true) :
    handlePaymentWait q = (false, 60) :=
  handlePaymentAux_timeout q 60 0 (fun j hj => h j (by omega))

/-- A context cancelled before the payment wait starts does not stop
the loop: every check errors, all 60 iterations still run, and the
result is the timeout error, not an early exit. -/
theorem handlePaymentCtx_cancelled (page : Nat → Option Bool) :
    handlePaymentCtx (some 0) page = (false, 60) := by
  unfold handlePaymentCtx
  apply handlePayment_timeout
  intro j hj
  simp [cancelledAt]

/-- If no preferred tag's selector clicks, the preference loop fails. -/
theorem trySeatPrefs_none (click : String → ClickOutcome) :
    ∀ prefs, (∀ p ∈ prefs, (click (seatSelector p)).ok = false) →
      trySeatPrefs click prefs = none := by
  intro prefs
  induction prefs with
  | nil => intro _; rfl
  | cons p rest ih =>
    intro h
    have hp := h p (List.mem_cons_self p rest)
    rw [trySeatPrefs, if_neg (by simp [hp])]
    exact ih (fun x hx => h x (List.mem_cons_of_mem p hx))

/-- A poll-only trace contains no purchase-phase action. -/
theorem pollTrace_all_poll :
    ∀ len start,
      ((pollTrace start len).all (fun a => !a.isConfirm && !a.isPayment)) = true := by
  intro len
  induction len with
  | zero => intro start; rfl
  | succ m ih =>
    intro start
    rw [pollTrace]
    simp only [List.all_cons, Bool.and_eq_true]
    exact ⟨⟨rfl, rfl⟩, ih (start + 1)⟩

/-- While availability stays false, a run whose context is done at
cycle `c` polls through cycles `start..c-1` and then observes the
cancellation at the top of iteration `c`, returning at once. -/
theorem monitor_cancelled_polling (env : Env) (prefs : List String) (c : Nat)
    (hc : env.cancelAt = some c)
    (hav : ∀ k, (checkTicketAvailability (env.cycles k).availQ).1 = false) :
    ∀ n start, start ≤ c → c < start + n →
      monitorAux env prefs start n = (RunResult.cancelled c, pollTrace start (c - start)) := by
  intro n
  induction n with
  | zero => intro start h1 h2; omega
  | succ m ih =>
    intro start h1 h2
    have hany : (ticketSelectors.any fun s => (env.cycles start).availQ s == some true) = false := by
      have hx := hav start
      rw [check_eq] at hx
      simpa using hx
    rw [monitorAux]
    by_cases hsc : start = c
    · subst hsc
      rw [if_pos (by simp [hc, cancelledAt]), Nat.sub_self, pollTrace]
    · have hlt : start < c := by omega
      rw [if_neg (by simp [hc, cancelledAt]; omega)]
      simp only [check_eq]
      rw [if_neg (by simp [hany])]
      rw [ih (start + 1) (by omega) (by omega)]
      have hcs : c - start = (c - (start + 1)) + 1 := by omega
      rw [hcs, pollTrace]

/-- Any purchase-phase action in a run's trace happened in a cycle
whose availability check returned true. -/
theorem monitor_action_availability (env : Env) (prefs : List String) (c : Nat)
    (a : Action)
    (ha : a = Action.seatAttempt c ∨ a = Action.confirmAttempt c ∨
      a = Action.paymentAttempt c) :
    ∀ fuel start, a ∈ (monitorAux env prefs start fuel).2 →
      (checkTicketAvailability (env.cycles c).availQ).1 = true := by
  intro fuel
  induction fuel with
  | zero =>
    intro start h
    simp [monitorAux] at h
  | succ n ih =>
    intro start h
    rw [monitorAux] at h
    split at h
    · simp at h
    · split at h
      · -- availability error branch
        simp only [List.mem_cons] at h
        rcases h with h | h | h
        · rcases ha with ha | ha | ha <;> simp [ha] at h
        · rcases ha with ha | ha | ha <;> simp [ha] at h
        · exact ih (start + 1) h
      · split at h
        · split at h
          · -- purchase succeeded: trace is pollCheck :: purchase actions
            simp only [List.mem_cons] at h
            rcases h with h | h
            · rcases ha with ha | ha | ha <;> simp [ha] at h
            · have hm := purchaseActions_mem _ prefs start a h
              have hcs : c = start := by
                rcases ha with ha | ha | ha <;> subst ha <;>
                  rcases hm with hm | hm | hm <;> simp_all
              subst hcs
              assumption
          · -- purchase failed: trace is pollCheck :: purchase actions ++ rest
            simp only [List.mem_cons, List.mem_append] at h
            rcases h with (h | h) | h
            · rcases ha with ha | ha | ha <;> simp [ha] at h
            · have hm := purchaseActions_mem _ prefs start a h
              have hcs : c = start := by
                rcases ha with ha | ha | ha <;> subst ha <;>
                  rcases hm with hm | hm | hm <;> simp_all
              subst hcs
              assumption
            · exact ih (start + 1) h
        · simp only [List.mem_cons] at h
          rcases h with h | h
          · rcases ha with ha | ha | ha <;> simp [ha] at h
          · exact ih (start + 1) h

/-! ## Claim theorems for the availability poller -/

/-- C6: `checkTicketAvailability` scans its ordered indicator list and
returns true exactly when some indicator matches (the scan stops at the
first match), false when none match or every query errors; an error from
one indicator check is skipped and treated as not-found, never aborting
the poll (the returned error is always nil). -/
theorem availability_first_match (q : String → Option Bool) :
    ((checkTicketAvailability q).1 = true ↔ ∃ s ∈ ticketSelectors, q s = some true) ∧
    (checkTicketAvailability q).2 = none ∧
    (∀ s rest, q s = none → scanSelectors q (s :: rest) = scanSelectors q rest) := by
  refine ⟨?_, ?_, ?_⟩
  · rw [check_eq]; simp [List.any_eq_true]
  · rw [check_eq]
  · intro s rest hqs; rw [scanSelectors, hqs]

/-- Witness for `availability_first_match` at a concrete erroring query. -/
theorem availability_first_match_witness :
    scanSelectors (fun _ => none) (".ticket-available" :: [".btn-buy"]) =
      scanSelectors (fun _ => none) [".btn-buy"] :=
  (availability_first_match (fun _ => none)).2.2 ".ticket-available" [".btn-buy"] rfl

/-- C9: `checkTicketAvailability`'s error result is always nil, for
every page state and every outcome of the individual element queries;
consequently the poll loop's error branch for it never executes in any
run (no `availError` action occurs in any trace). -/
theorem availability_check_never_errors :
    (∀ q, (checkTicketAvailability q).2 = none) ∧
    (∀ env prefs fuel start,
      ((monitorAux env prefs start fuel).2.all (fun a => !a.isAvailError)) = true) := by
  constructor
  · intro q; rw [check_eq]
  · intro env prefs fuel start
    exact monitor_no_availError env prefs fuel start

/-! ## Claim theorems for seat selection and the poll loop -/

/-- C7: seat selection honors the preference order: with preferred tags
`["VIP","A"]` and VIP clickable the choice is VIP; with VIP not
clickable and A clickable the choice is A; when no preferred tag is
clickable, exactly the one generic fallback is attempted, a successful
fallback yields a choice with `was-preferred = false`, and a failed
fallback yields the `no seat selectable` failure. -/
theorem selectSeats_preference_order (click : String → ClickOutcome) (prefs : List String) :
    ((click (seatSelector "VIP")).ok = true →
      selectSeats click ["VIP", "A"] = some (SeatChoice.preferred "VIP")) ∧
    ((click (seatSelector "VIP")).ok = false → (click (seatSelector "A")).ok = true →
      selectSeats click ["VIP", "A"] = some (SeatChoice.preferred "A")) ∧
    ((∀ p ∈ prefs, (click (seatSelector p)).ok = false) →
      (click fallbackSelector).ok = true →
      selectSeats click prefs = some SeatChoice.fallback ∧
      SeatChoice.wasPreferred SeatChoice.fallback = false) ∧
    ((∀ p ∈ prefs, (click (seatSelector p)).ok = false) →
      (click fallbackSelector).ok = false →
      selectSeats click prefs = none) := by
  refine ⟨?_, ?_, ?_, ?_⟩
  · intro h
    simp [selectSeats, trySeatPrefs, h]
  · intro h1 h2
    simp [selectSeats, trySeatPrefs, h1, h2]
  · intro h1 h2
    refine ⟨?_, rfl⟩
    simp only [selectSeats, trySeatPrefs_none click prefs h1, h2, if_true]
  · intro h1 h2
    simp only [selectSeats, trySeatPrefs_none click prefs h1, h2]
    simp

/-- Witness for `selectSeats_preference_order`: with nothing clickable,
seat selection fails. -/
theorem selectSeats_preference_order_witness :
    selectSeats clickAllFail ["VIP"] = none :=
  (selectSeats_preference_order clickAllFail ["VIP"]).2.2.2 (fun _ _ => rfl) rfl

/-- C4: every seat-selection, purchase-confirmation or payment action
in a run's trace belongs to a cycle whose availability check returned
true; a run in which availability is never observed true performs no
such action. -/
theorem purchase_requires_availability (env : Env) (prefs : List String)
    (fuel start c : Nat) :
    ((Action.seatAttempt c ∈ (monitorAux env prefs start fuel).2 ∨
      Action.confirmAttempt c ∈ (monitorAux env prefs start fuel).2 ∨
      Action.paymentAttempt c ∈ (monitorAux env prefs start fuel).2) →
      (checkTicketAvailability (env.cycles c).availQ).1 = true) ∧
    ((∀ k, (checkTicketAvailability (env.cycles k).availQ).1 = false) →
      Action.seatAttempt c ∉ (monitorAux env prefs start fuel).2 ∧
      Action.confirmAttempt c ∉ (monitorAux env prefs start fuel).2 ∧
      Action.paymentAttempt c ∉ (monitorAux env prefs start fuel).2) := by
  constructor
  · intro h
    rcases h with h | h | h
    · exact monitor_action_availability env prefs c _ (Or.inl rfl) fuel start h
    · exact monitor_action_availability env prefs c _ (Or.inr (Or.inl rfl)) fuel start h
    · exact monitor_action_availability env prefs c _ (Or.inr (Or.inr rfl)) fuel start h
  · intro hav
    refine ⟨?_, ?_, ?_⟩ <;> intro hmem
    · have hv := monitor_action_availability env prefs c _ (Or.inl rfl) fuel start hmem
      rw [hav c] at hv
      exact absurd hv (by simp)
    · have hv := monitor_action_availability env prefs c _ (Or.inr (Or.inl rfl)) fuel start hmem
      rw [hav c] at hv
      exact absurd hv (by simp)
    · have hv := monitor_action_availability env prefs c _ (Or.inr (Or.inr rfl)) fuel start hmem
      rw [hav c] at hv
      exact absurd hv (by simp)

/-- Witness for `purchase_requires_availability` on a concrete
successful run. -/
theorem purchase_requires_availability_witness :
    (checkTicketAvailability (envW.cycles 0).availQ).1 = true :=
  (purchase_requires_availability envW ["VIP"] 1 0 0).1 (Or.inl (by decide))

/-- C8: a purchase-confirmation failure while a seat is selected, or a
seat-selection failure after availability was observed, is transient:
the run continues with the next poll cycle instead of terminating. -/
theorem transient_failures_return_to_polling (env : Env) (prefs : List String)
    (cycle fuel : Nat)
    (hnc : cancelledAt env.cancelAt cycle = false)
    (hav : (checkTicketAvailability (env.cycles cycle).availQ).1 = true)
    (hp : (purchaseActions (env.cycles cycle) prefs cycle).1 = PurchaseResult.confirmFail ∨
      (purchaseActions (env.cycles cycle) prefs cycle).1 = PurchaseResult.seatFail) :
    monitorAux env prefs cycle (fuel + 1) =
      ((monitorAux env prefs (cycle + 1) fuel).1,
        Action.pollCheck cycle :: (purchaseActions (env.cycles cycle) prefs cycle).2 ++
          (monitorAux env prefs (cycle + 1) fuel).2) := by
  have hany : (ticketSelectors.any fun s => (env.cycles cycle).availQ s == some true) = true := by
    rw [check_eq] at hav
    simpa using hav
  rw [monitorAux, if_neg (by simp [hnc])]
  simp only [check_eq]
  rw [if_pos hany]
  rcases hp with hp | hp <;> rw [hp]

/-- Witness for `transient_failures_return_to_polling` on a run whose
confirm click fails at cycle 0. -/
theorem transient_failures_return_to_polling_witness :
    monitorAux envConfirmFail ["VIP"] 0 1 =
      ((monitorAux envConfirmFail ["VIP"] 1 0).1,
        Action.pollCheck 0 :: (purchaseActions (envConfirmFail.cycles 0) ["VIP"] 0).2 ++
          (monitorAux envConfirmFail ["VIP"] 1 0).2) :=
  transient_failures_return_to_polling envConfirmFail ["VIP"] 0 0 rfl (by decide)
    (Or.inl (by decide))

/-! ## Claim theorems for cancellation, payment timeout, Start, ticker -/

/-- C3 (amended): the poll loop observes cancellation at the top of
every iteration — a cancellation delivered while polling yields the
cancelled outcome at its very next iteration with a trace of polls only
(no purchase confirmation or payment action) — but the payment-wait
loop never checks the cancellation context: with the context done from
the start, all 60 payment checks still run and the loop ends in
timeout. -/
theorem cancellation_cooperative (env : Env) (prefs : List String) (c fuel : Nat)
    (hc : env.cancelAt = some c)
    (hav : ∀ k, (checkTicketAvailability (env.cycles k).availQ).1 = false)
    (hf : c < fuel) :
    monitorTicketsRun env prefs fuel = (RunResult.cancelled c, pollTrace 0 c) ∧
    ((pollTrace 0 c).all (fun a => !a.isConfirm && !a.isPayment)) = true ∧
    (∀ page, handlePaymentCtx (some 0) page = (false, 60)) := by
  refine ⟨?_, pollTrace_all_poll c 0, handlePaymentCtx_cancelled⟩
  have h := monitor_cancelled_polling env prefs c hc hav fuel 0 (by omega) (by omega)
  simpa [monitorTicketsRun] using h

/-- Witness for `cancellation_cooperative`: cancellation before cycle 0
on a no-ticket page. -/
theorem cancellation_cooperative_witness :
    monitorTicketsRun envCancel [] 1 = (RunResult.cancelled 0, pollTrace 0 0) :=
  (cancellation_cooperative envCancel [] 0 1 rfl (fun _ => rfl) (by omega)).1

/-- Counterexample to C3 as stated: the payment-wait loop does not
check the cancellation context at the top of its iterations — with the
context done before the first check (so every check errors), all 60
iterations still run and the loop returns the timeout error instead of
stopping. -/
theorem payment_wait_ignores_cancellation_cex :
    handlePaymentCtx (some 0) (fun _ => some true) = (false, 60) := by
  decide

/-- C1 (amended): a payment wait that observes no success signal in its
60 one-second checks produces the payment-timeout error, and the poll
loop treats that error like any other purchase failure: the run is not
terminal — it proceeds to the next poll cycle, where seat selection,
purchase confirmation and payment may all be attempted again. -/
theorem payment_timeout_returns_to_polling (env : Env) (prefs : List String)
    (cycle fuel : Nat)
    (hq : ∀ j, j < 60 → (env.cycles cycle).payQ j ≠ some true)
    (hnc : cancelledAt env.cancelAt cycle = false)
    (hav : (checkTicketAvailability (env.cycles cycle).availQ).1 = true)
    (hseat : selectSeats (env.cycles cycle).clickQ prefs ≠ none)
    (hconf : confirmPurchase (env.cycles cycle).clickQ = true) :
    (purchaseActions (env.cycles cycle) prefs cycle).1 = PurchaseResult.payTimeout ∧
    monitorAux env prefs cycle (fuel + 1) =
      ((monitorAux env prefs (cycle + 1) fuel).1,
        Action.pollCheck cycle :: (purchaseActions (env.cycles cycle) prefs cycle).2 ++
          (monitorAux env prefs (cycle + 1) fuel).2) := by
  have hpay : handlePayment (env.cycles cycle).payQ = false := by
    unfold handlePayment
    rw [handlePayment_timeout _ hq]
  have hpt : (purchaseActions (env.cycles cycle) prefs cycle).1 = PurchaseResult.payTimeout := by
    unfold purchaseActions
    rcases hsel : selectSeats (env.cycles cycle).clickQ prefs with _ | s
    · exact absurd hsel hseat
    · simp [hsel, hconf, hpay]
  refine ⟨hpt, ?_⟩
  have hany : (ticketSelectors.any fun s => (env.cycles cycle).availQ s == some true) = true := by
    rw [check_eq] at hav
    simpa using hav
  rw [monitorAux, if_neg (by simp [hnc])]
  simp only [check_eq]
  rw [if_pos hany, hpt]

/-- Witness for `payment_timeout_returns_to_polling` at cycle 0 of the
timeout-then-success run. -/
theorem payment_timeout_returns_to_polling_witness :
    (purchaseActions (envC1.cycles 0) ["VIP"] 0).1 = PurchaseResult.payTimeout ∧
    monitorAux envC1 ["VIP"] 0 1 =
      ((monitorAux envC1 ["VIP"] 1 0).1,
        Action.pollCheck 0 :: (purchaseActions (envC1.cycles 0) ["VIP"] 0).2 ++
          (monitorAux envC1 ["VIP"] 1 0).2) :=
  payment_timeout_returns_to_polling envC1 ["VIP"] 0 0
    (fun j _ h => by simp [envC1, cycleTimeout, payNever] at h) rfl
    (by decide) (by decide) (by decide)

/-- Counterexample to C1 as stated: cycle 0 ends in payment timeout,
yet the run does not end in a terminal failure — it polls again and at
cycle 1 performs a fresh seat selection, purchase confirmation and
payment attempt, finishing in success. -/
theorem payment_timeout_not_terminal_cex :
    handlePayment payNever = false ∧
    monitorTicketsRun envC1 ["VIP"] 2 =
      (RunResult.success 1,
        [Action.pollCheck 0, Action.seatAttempt 0, Action.confirmAttempt 0,
         Action.paymentAttempt 0, Action.pollCheck 1, Action.seatAttempt 1,
         Action.confirmAttempt 1, Action.paymentAttempt 1]) := by
  constructor
  · decide
  · decide

/-- C5: a login failure — including an unsupported configured site —
ends the run at once with the wrapped login error: exactly one login
attempt, no event-page navigation, no poll cycle. -/
theorem login_failure_immediate_terminal (e : StartEnv) (prefs : List String) (fuel : Nat) :
    (∀ m, login e.site e.loginEnv = some m →
      Start e prefs fuel =
        (StartOutcome.loginFailed ("登录失败: " ++ m), [Action.loginAttempt])) ∧
    (e.site ≠ "interpark" → e.site ≠ "yes24" → e.site ≠ "melon" →
      login e.site e.loginEnv = some ("不支持的票务网站: " ++ e.site)) := by
  constructor
  · intro m hm
    unfold Start
    rw [hm]
  · intro h1 h2 h3
    unfold login
    split <;> simp_all

/-- Witness for `login_failure_immediate_terminal` at a failing
Interpark login. -/
theorem login_failure_immediate_terminal_witness :
    Start startEnvLoginFail [] 1 =
      (StartOutcome.loginFailed ("登录失败: " ++ "认证失败"), [Action.loginAttempt]) :=
  (login_failure_immediate_terminal startEnvLoginFail [] 1).1 "认证失败" rfl

/-- C2 (amended): when navigation to the event page fails, the run ends
immediately with the wrapped navigation error after the single
navigation attempt: no retry and no backoff are performed (the
configured MaxRetries/RetryDelay are unused). -/
theorem navigation_failure_no_retry (e : StartEnv) (prefs : List String) (fuel : Nat)
    (m : String) (hl : login e.site e.loginEnv = none) (hn : e.navR = some m) :
    Start e prefs fuel =
      (StartOutcome.navigationFailed ("进入演唱会页面失败: " ++ m),
        [Action.loginAttempt, Action.navigateEvent]) := by
  unfold Start
  rw [hl, hn]

/-- Witness for `navigation_failure_no_retry`. -/
theorem navigation_failure_no_retry_witness :
    Start startEnvNavFail [] 1 =
      (StartOutcome.navigationFailed ("进入演唱会页面失败: " ++ "导航超时"),
        [Action.loginAttempt, Action.navigateEvent]) :=
  navigation_failure_no_retry startEnvNavFail [] 1 "导航超时" rfl rfl

/-- Counterexample to C2 as stated: a run with a failing event-page
navigation is terminal right away — its trace holds exactly one
navigation attempt, so no retry ever happened. -/
theorem navigation_retry_cex :
    Start startEnvNavFail [] 5 =
      (StartOutcome.navigationFailed ("进入演唱会页面失败: " ++ "导航超时"),
        [Action.loginAttempt, Action.navigateEvent]) := rfl

/-- C10 (amended): the `time.NewTicker` call in `monitorTickets` panics
for every configuration with `RefreshInterval ≤ 0`; but positivity
alone does not make the panic unreachable — the millisecond conversion
truncates toward zero, so the panic is avoided exactly when
`RefreshInterval ≥ 1/1000` seconds. -/
theorem refresh_interval_panic_boundary (ri : ℚ) :
    (ri ≤ 0 → monitorTickerPanics ri = true) ∧
    (monitorTickerPanics ri = false ↔ 1 / 1000 ≤ ri) := by
  have key : monitorTickerPanics ri = false ↔ 1 / 1000 ≤ ri := by
    unfold monitorTickerPanics newTickerPanics refreshDurationMs truncTowardZero
    by_cases h0 : (0 : ℚ) ≤ ri * 1000
    · rw [if_pos h0]
      simp only [decide_eq_false_iff_not, not_le]
      rw [Int.lt_iff_add_one_le, zero_add, Int.le_floor]
      constructor
      · intro h
        push_cast at h
        linarith
      · intro h
        push_cast
        linarith
    · rw [if_neg h0]
      push_neg at h0
      have hle : ⌈ri * 1000⌉ ≤ 0 := Int.ceil_le.mpr (by push_cast; linarith)
      constructor
      · intro h
        simp only [decide_eq_false_iff_not, not_le] at h
        omega
      · intro h
        exfalso
        have hpos : (0 : ℚ) < ri * 1000 := by linarith
        linarith
  constructor
  · intro h
    rcases Bool.eq_false_or_eq_true (monitorTickerPanics ri) with hb | hb
    · exact hb
    · exfalso
      have := key.mp hb
      linarith
  · exact key

/-- Witness for `refresh_interval_panic_boundary` at interval 0. -/
theorem refresh_interval_panic_boundary_witness :
    monitorTickerPanics 0 = true :=
  (refresh_interval_panic_boundary 0).1 le_rfl

/-- Counterexample to C10 as stated: `RefreshInterval = 1/2000` seconds
is strictly positive, yet the converted duration truncates to 0 ms and
the `time.NewTicker` call still panics. -/
theorem refresh_interval_positive_panic_cex :
    (0 : ℚ) < 1 / 2000 ∧ monitorTickerPanics (1 / 2000) = true := by
  constructor
  · norm_num
  · have h12 : (1 / 2000 : ℚ) * 1000 = 1 / 2 := by norm_num
    unfold monitorTickerPanics newTickerPanics refreshDurationMs truncTowardZero
    rw [h12, if_pos (by norm_num)]
    have hf : ⌊(1 / 2 : ℚ)⌋ = 0 := by
      rw [Int.floor_eq_zero_iff, Set.mem_Ico]
      constructor <;> norm_num
    rw [hf]
    rfl

end TickGrabber
